import Mathlib

/-!
Shallow embedding of the credential-recovery and abuse-control core of the
jwt-auth-template repository: the Redis-backed OTP challenge
(`src/backend/src/services/redis.service.ts`, `OtpService` in the service
layer), the reset-token exchange (`ResetTokenService`,
`ResetTokenRedisService`), the multi-secret token issuer
(`src/backend/src/services/token.service.ts`), the composite OTP request
rate limiter
(`src/backend/src/middlewares/rateLimiters/auth/requestOtpLimiter.ts`) and
the global IP rate limiter with its in-memory block cache
(`src/backend/src/middlewares/globalRateLimiter.ts`).

Redis is modelled as a total function from keys to optional values; every
Redis command used by the code (`hset`/`hgetall` collapsed to one record
read/write, `hincrby` on the single mutated field, `del`, `exists`, `get`,
`set`) acts atomically on that map, which matches Redis's single-threaded
execution of individual commands.  TTLs are not tracked explicitly: natural
expiry is modelled as the key simply being absent, which is the only way
the code can observe it.
-/

namespace JwtAuth

/-- Modelled from the spec: the repository's
`utils/encryption/aes.encryption` module (imported by `OtpService` and
`ResetTokenService`) is not present under `src/`; only its unit tests and
callers are.  Spec section 4.4 describes reversible encryption at rest with
an equality comparison, and the repository's AES test asserts
`compare(p, encrypt(p)) = true` and `compare(p, encrypt(q)) = false` for
`p ≠ q`.  Ciphertexts are therefore modelled as the carried plaintext
wrapped in an opaque constructor; `compare` decrypts and tests equality. -/
structure Encrypted where
  plain : String
deriving DecidableEq, Repr

/-- Modelled from the spec: AES-256-CBC encryption of a plaintext, abstracted
to an injective wrapper (the random IV only affects the ciphertext bytes,
never the outcome of `compare`). -/
def encrypt (plainText : String) : Encrypted := ⟨plainText⟩

/-- Modelled from the spec: `compare(candidate, stored)` decrypts `stored`
and reports whether it equals `candidate`. -/
def compare (candidate : String) (stored : Encrypted) : Bool :=
  candidate == stored.plain

/-- A Redis keyspace holding values of one shape: total map from key
strings to optional values.  `none` means the key is absent (never set,
deleted, or naturally expired). -/
def Store (α : Type) : Type := String → Option α

/-- The empty keyspace. -/
def Store.empty {α : Type} : Store α := fun _ => none

/-- Atomic write of one key (Redis `set` / `hset` of a whole record). -/
def Store.set {α : Type} (st : Store α) (k : String) (v : α) : Store α :=
  fun k2 => if k2 = k then some v else st k2

/-- Atomic removal of one key (Redis `del`). -/
def Store.del {α : Type} (st : Store α) (k : String) : Store α :=
  fun k2 => if k2 = k then none else st k2

/-- The slice of a `UserDocument` the OTP services read: `_id` and `email`
(`src/backend/src/models/user.ts`). -/
structure UserDoc where
  id : String
  email : String
deriving DecidableEq, Repr

/-- The Redis hash stored by `OtpRedisService.setOtp`:
`{ userId, hashedOtp, attemptsLeft }`.  `attemptsLeft` is an `Int` because
`hincrby` can in principle drive it below zero. -/
structure OtpRecord where
  userId : String
  hashedOtp : Encrypted
  attemptsLeft : Int
deriving DecidableEq, Repr

namespace OtpRedisService

/-- `getKey` of `OtpRedisService` (`redis.service.ts` line 7):
the raw email is appended to a fixed namespace. -/
def getKey (email : String) : String :=
  "auth:password-reset:otp:" ++ email

/-- `setOtp` (`redis.service.ts` lines 9-22): `del` the key, then `hset`
the fresh record with `attemptsLeft = 3` (the `expire` call only sets the
TTL, which the model keeps implicit). -/
def setOtp (user : UserDoc) (hashedOtp : Encrypted) (st : Store OtpRecord) :
    Store OtpRecord :=
  let key := getKey user.email
  (st.del key).set key { userId := user.id, hashedOtp := hashedOtp, attemptsLeft := 3 }

/-- `getOtpData` (`redis.service.ts` lines 24-38): `hgetall`, `null` when
the hash is absent or empty. -/
def getOtpData (email : String) (st : Store OtpRecord) : Option OtpRecord :=
  st (getKey email)

/-- `decreaseAttempts` (`redis.service.ts` lines 40-53): if the key exists,
`hincrby attemptsLeft -1`; if the new value is `≤ 0` the key is deleted;
the new value is returned either way, `null` when the key was absent. -/
def decreaseAttempts (email : String) (st : Store OtpRecord) :
    Option Int × Store OtpRecord :=
  let key := getKey email
  match st key with
  | none => (none, st)
  | some r =>
    let attemptsLeft := r.attemptsLeft - 1
    let st1 := st.set key { r with attemptsLeft := attemptsLeft }
    if attemptsLeft ≤ 0 then (some attemptsLeft, st1.del key)
    else (some attemptsLeft, st1)

/-- `deleteOtp` (`redis.service.ts` lines 55-58). -/
def deleteOtp (email : String) (st : Store OtpRecord) : Store OtpRecord :=
  st.del (getKey email)

end OtpRedisService

/-- Result shape of `OtpService.verifyOtp`:
`{ success: true } | { success: false; attemptsLeft?: number }`. -/
structure VerifyOtpResult where
  success : Bool
  attemptsLeft : Option Int
deriving DecidableEq, Repr

namespace OtpService

/-- `verifyOtp` (`OtpService`, lines 28-46 of the service file): absent
record fails with no hint; a matching code deletes the record and succeeds;
a mismatch decrements and reports the new count only when it is truthy in
JavaScript (non-null and nonzero). -/
def verifyOtp (email otp : String) (st : Store OtpRecord) :
    VerifyOtpResult × Store OtpRecord :=
  match OtpRedisService.getOtpData email st with
  | none => ({ success := false, attemptsLeft := none }, st)
  | some data =>
    if compare otp data.hashedOtp then
      ({ success := true, attemptsLeft := none }, OtpRedisService.deleteOtp email st)
    else
      match OtpRedisService.decreaseAttempts email st with
      | (some n, st1) =>
        if n ≠ 0 then ({ success := false, attemptsLeft := some n }, st1)
        else ({ success := false, attemptsLeft := none }, st1)
      | (none, st1) => ({ success := false, attemptsLeft := none }, st1)

/-- `generateAndSendOtp` (`OtpService`, lines 15-26) restricted to its
store effect: the freshly generated code (passed here as the argument,
standing for the random 6-digit draw) is encrypted and stored via
`setOtp`; the email send has no store effect. -/
def generateAndSendOtp (user : UserDoc) (otp : String) (st : Store OtpRecord) :
    Store OtpRecord :=
  OtpRedisService.setOtp user (encrypt otp) st

end OtpService

/-- The store left behind by one `verifyOtp` call — shorthand for chaining
consecutive verification attempts against the same subject. -/
def otpAfterWrong (email w : String) (st : Store OtpRecord) : Store OtpRecord :=
  (OtpService.verifyOtp email w st).2

namespace ResetTokenRedisService

/-- `getKey` of `ResetTokenRedisService` (`redis.service.ts` line 63):
the raw email appended to a fixed namespace. -/
def getKey (email : String) : String :=
  "auth:password-reset:token:" ++ email

/-- `setResetToken` (`redis.service.ts` lines 65-68): Redis `set` with a
600-second TTL (TTL implicit in the model). -/
def setResetToken (email : String) (hashedResetToken : Encrypted)
    (st : Store Encrypted) : Store Encrypted :=
  st.set (getKey email) hashedResetToken

/-- `getToken` (`redis.service.ts` lines 70-73). -/
def getToken (email : String) (st : Store Encrypted) : Option Encrypted :=
  st (getKey email)

/-- `deleteToken` (`redis.service.ts` lines 75-78). -/
def deleteToken (email : String) (st : Store Encrypted) : Store Encrypted :=
  st.del (getKey email)

end ResetTokenRedisService

namespace ResetTokenService

/-- `createAndStore` (`resetToken.service.ts` lines 7-12) restricted to its
store effect: the fresh UUID (passed as `resetToken`, standing for the
`uuidv4()` draw) is encrypted and stored under the email's key. -/
def createAndStore (email resetToken : String) (st : Store Encrypted) :
    Store Encrypted :=
  ResetTokenRedisService.setResetToken email (encrypt resetToken) st

/-- `verify` (`resetToken.service.ts` lines 14-19): read the stored
ciphertext; absent means `false`; otherwise `compare`.  The read and the
comparison perform no write: `verify` never consumes the token. -/
def verify (email token : String) (st : Store Encrypted) : Bool :=
  match ResetTokenRedisService.getToken email st with
  | none => false
  | some stored => compare token stored

/-- `delete` (`resetToken.service.ts` lines 21-23). -/
def delete (email : String) (st : Store Encrypted) : Store Encrypted :=
  ResetTokenRedisService.deleteToken email st

end ResetTokenService

/-- Outcome of the `resetPassword` controller
(`auth.controller.ts` lines 119-148) as seen by the client. -/
inductive ResetPasswordResult
  | ok
  | invalidToken
  | changeFailed
deriving DecidableEq, Repr

/-- The `resetPassword` controller flow (`auth.controller.ts` lines
119-148) restricted to the reset-token store: `ResetTokenService.verify`;
on failure throw 401 with the store untouched; then
`AuthService.changePassword` (external — `changeOk` says whether it
throws); only after it completes is `ResetTokenService.delete` reached.
An exception from `changePassword` is caught by the surrounding
`try`/`catch` before the delete, leaving the token in place. -/
def resetPassword (email resetToken : String) (changeOk : Bool)
    (st : Store Encrypted) : ResetPasswordResult × Store Encrypted :=
  if ResetTokenService.verify email resetToken st then
    if changeOk then (ResetPasswordResult.ok, ResetTokenService.delete email st)
    else (ResetPasswordResult.changeFailed, st)
  else (ResetPasswordResult.invalidToken, st)

/-- One in-flight redemption of a reset token, split at its store-level
suspension points: `pc = 0` before the `verify` read, `pc = 1` after a
successful `verify` (password change in progress, no store effect),
`pc = 2` finished with outcome `success`. -/
structure RedeemProc where
  pc : Nat
  success : Bool
deriving DecidableEq, Repr

/-- One atomic store step of a redemption.  Each Redis command the
redemption issues (the `get` inside `verify`, the `del` inside `delete`)
is atomic, but nothing links the two: between them the scheduler may run
the other request. -/
def redeemStep (email token : String) (p : RedeemProc) (st : Store Encrypted) :
    RedeemProc × Store Encrypted :=
  match p.pc with
  | 0 =>
    if ResetTokenService.verify email token st then ({ pc := 1, success := false }, st)
    else ({ pc := 2, success := false }, st)
  | 1 => ({ pc := 2, success := true }, ResetTokenService.delete email st)
  | _ => (p, st)

/-- Two concurrent redemptions of the same token over a shared store. -/
structure TwoRedeemState where
  p1 : RedeemProc
  p2 : RedeemProc
  st : Store Encrypted

/-- Run an interleaving: each list entry schedules one atomic step of
process 2 (`true`) or process 1 (`false`). -/
def runSchedule (email token : String) (sched : List Bool)
    (s : TwoRedeemState) : TwoRedeemState :=
  match sched with
  | [] => s
  | b :: rest =>
    let s1 :=
      if b then
        let r := redeemStep email token s.p2 s.st
        { s with p2 := r.1, st := r.2 }
      else
        let r := redeemStep email token s.p1 s.st
        { s with p1 := r.1, st := r.2 }
    runSchedule email token rest s1

/-- Initial state for two concurrent redemptions of a token that was just
issued for `email` by `ResetTokenService.createAndStore`. -/
def redeemInit (email token : String) : TwoRedeemState :=
  { p1 := { pc := 0, success := false }
    p2 := { pc := 0, success := false }
    st := ResetTokenService.createAndStore email token Store.empty }

/-- The deployment's three signing secrets (`env.ts` reads them from the
environment).  Modelled as opaque distinct constants; nothing below
depends on their concrete text. -/
def accessTokenSecret : String := "env.ACCESS_TOKEN_SECRET"

/-- The refresh-token signing secret from the environment. -/
def refreshTokenSecret : String := "env.REFRESH_TOKEN_SECRET"

/-- The email-verification signing secret from the environment. -/
def verificationTokenSecret : String := "env.VERIFICATION_TOKEN_SECRET"

/-- `secretsMap` (`token.service.ts` lines 13-17): key-identifier to
secret.  Lookup of an unknown identifier is `none` (JavaScript
`undefined`). -/
def secretsMap (kid : String) : Option String :=
  if kid = "access-token-v1" then some accessTokenSecret
  else if kid = "refresh-token-v1" then some refreshTokenSecret
  else if kid = "verification-v1" then some verificationTokenSecret
  else none

/-- The `TokenType` union (`token.service.ts` line 6). -/
inductive TokenType
  | access
  | verification
  | refresh
deriving DecidableEq, Repr

/-- The string each `TokenType` serialises to in a JWT payload. -/
def TokenType.toPayloadString : TokenType → String
  | .access => "access"
  | .verification => "verification"
  | .refresh => "refresh"

/-- `kidMap` (`token.service.ts` lines 19-23). -/
def kidMap : TokenType → String
  | .access => "access-token-v1"
  | .refresh => "refresh-token-v1"
  | .verification => "verification-v1"

/-- `TokenPayloadData` (`token.service.ts` lines 8-11). -/
structure TokenPayloadData where
  userId : String
  type : TokenType
deriving DecidableEq, Repr

/-- A structurally well-formed JWT as `verifyToken` observes it after
`jwt.decode`: the header's optional `kid`, the payload's optional `userId`
and `type` claims (arbitrary strings — `verifyToken` only casts, it never
checks membership in the `TokenType` union), whether the `exp` claim has
passed, and the secret whose HMAC the signature actually matches.
`signedWith` is the standard symbolic-crypto abstraction of an
unforgeable MAC: `jwt.verify(token, secret)` accepts exactly when
`signedWith = secret`. -/
structure Jwt where
  kid : Option String
  userId : Option String
  type : Option String
  signedWith : String
  expired : Bool
deriving DecidableEq, Repr

/-- The errors `verifyToken` can throw, by source
(`token.service.ts` lines 47-70). -/
inductive TokenVerifyError
  | unknownKid
  | invalidPayload
  | expired
  | invalidSignature
deriving DecidableEq, Repr

/-- What `verifyToken` returns: the payload's `userId` and `type` claims
as strings, exactly as decoded (the `as Partial<TokenPayloadData>` cast
performs no runtime validation of `type`). -/
structure ReturnedPayload where
  userId : String
  type : String
deriving DecidableEq, Repr

/-- `TokenService.generateToken` (`token.service.ts` lines 27-45): picks
the key identifier from the payload's declared type, signs with that
identifier's secret, embeds the identifier in the header. -/
def generateToken (payload : TokenPayloadData) : Jwt :=
  let kid := kidMap payload.type
  { kid := some kid
    userId := some payload.userId
    type := some payload.type.toPayloadString
    signedWith := (secretsMap kid).getD ""
    expired := false }

/-- `TokenService.verifyToken` (`token.service.ts` lines 47-70): decode the
header; reject a missing or unknown `kid`; verify the signature with that
`kid`'s secret (`jwt.verify` checks the signature, then expiry); reject a
payload whose `userId` or `type` is missing or empty (JavaScript
falsiness); otherwise return `{ userId, type }` verbatim.  No comparison
between the payload's `type` and the header's `kid` is performed. -/
def verifyToken (t : Jwt) : Except TokenVerifyError ReturnedPayload :=
  match t.kid with
  | none => Except.error TokenVerifyError.unknownKid
  | some kid =>
    match secretsMap kid with
    | none => Except.error TokenVerifyError.unknownKid
    | some secret =>
      if t.signedWith ≠ secret then Except.error TokenVerifyError.invalidSignature
      else if t.expired then Except.error TokenVerifyError.expired
      else
        match t.userId, t.type with
        | some u, some ty =>
          if u = "" ∨ ty = "" then Except.error TokenVerifyError.invalidPayload
          else Except.ok { userId := u, type := ty }
        | _, _ => Except.error TokenVerifyError.invalidPayload

/-- How every caller of `verifyToken` gates on purpose (`loginRequired`
checks `decoded.type !== 'access'`, `verifyEmail` checks
`!== 'verification'`, `refreshToken` checks `!== 'refresh'`): accept only
when verification succeeded and the returned `type` equals the expected
purpose string. -/
def callerAccepts (expected : String)
    (r : Except TokenVerifyError ReturnedPayload) : Bool :=
  match r with
  | Except.ok p => p.type == expected
  | Except.error _ => false

/-- One `rate-limiter-flexible` counter record for a single key: points
consumed so far in the current window, and the `msBeforeNext` the library
reports for that key (time until the window resets). -/
structure LimiterEntry where
  consumedPoints : Nat
  msBeforeNext : Nat
deriving DecidableEq, Repr

/-- `RateLimiterRes.remainingPoints`: the configured budget minus the
consumed points, floored at zero. -/
def remainingPoints (points : Nat) (e : LimiterEntry) : Nat :=
  points - e.consumedPoints

/-- The counter state the `requestOtpLimiter` middleware touches for one
request: the request's email key in the short-term (1 point / 60 s) and
daily (5 points / 24 h) email limiters and its IP key in the daily IP
limiter (10 points / 24 h) — `requestOtpLimiter.ts` lines 10-29.  `none`
is an untouched key (`get` resolves `null`). -/
structure OtpLimState where
  shortTerm : Option LimiterEntry
  dailyEmail : Option LimiterEntry
  dailyIp : Option LimiterEntry
deriving DecidableEq, Repr

/-- `Math.ceil(ms / 1000)` on integer milliseconds. -/
def ceilSeconds (ms : Nat) : Nat := (ms + 999) / 1000

/-- `res?.msBeforeNext || 0`: `0` for a `null` record. -/
def optMs : Option LimiterEntry → Nat
  | none => 0
  | some e => e.msBeforeNext

/-- `res?.remainingPoints === 0`: `false` for a `null` record (optional
chaining yields `undefined`, which is not `=== 0`). -/
def peekExhausted (points : Nat) : Option LimiterEntry → Bool
  | none => false
  | some e => remainingPoints points e == 0

/-- A `consume(key, 1)` against a `rate-limiter-flexible` Redis store:
the stored counter is atomically incremented whether or not the consume
is ultimately rejected; a fresh key starts a window of `durationMs`. -/
def consume1 (durationMs : Nat) : Option LimiterEntry → LimiterEntry
  | none => { consumedPoints := 1, msBeforeNext := durationMs }
  | some e => { consumedPoints := e.consumedPoints + 1, msBeforeNext := e.msBeforeNext }

/-- Outcome of the `requestOtpLimiter` middleware for one request. -/
inductive OtpLimiterOutcome
  | allow
  | rateLimited (retryAfterSeconds : Nat)
  | serverError
deriving DecidableEq, Repr

/-- The `requestOtpLimiter` middleware (`requestOtpLimiter.ts` lines
31-88), for a request whose body carries an email.  `redisUp = false`
models the backing store being unreachable: the first awaited store call
rejects with a plain `Error`, which the `catch` — finding no
`msBeforeNext` on it — maps to a 500 `Redis Server Error!` with nothing
consumed.  With the store up: `get` (peek) the daily email and daily IP
limiters only; if either peeked record has zero remaining points, reject
with `ceil(max(emailMs, ipMs)/1000)` and consume nothing.  Otherwise
consume the short-term limiter (its rejection, via the `catch`, yields a
429 from its own `msBeforeNext` — note the short-term limiter was never
peeked), then consume both daily limiters together (`Promise.all` starts
both increments; the first rejection — the email limiter is listed first —
supplies the 429). -/
def requestOtpLimiter (redisUp : Bool) (st : OtpLimState) :
    OtpLimiterOutcome × OtpLimState :=
  if redisUp = false then (OtpLimiterOutcome.serverError, st)
  else if peekExhausted 5 st.dailyEmail || peekExhausted 10 st.dailyIp then
    (OtpLimiterOutcome.rateLimited
      (ceilSeconds (max (optMs st.dailyEmail) (optMs st.dailyIp))), st)
  else
    let sNew := consume1 60000 st.shortTerm
    let st1 : OtpLimState := { st with shortTerm := some sNew }
    if sNew.consumedPoints > 1 then
      (OtpLimiterOutcome.rateLimited (ceilSeconds sNew.msBeforeNext), st1)
    else
      let eNew := consume1 86400000 st.dailyEmail
      let iNew := consume1 86400000 st.dailyIp
      let st2 : OtpLimState := { st1 with dailyEmail := some eNew, dailyIp := some iNew }
      if eNew.consumedPoints > 5 then
        (OtpLimiterOutcome.rateLimited (ceilSeconds eNew.msBeforeNext), st2)
      else if iNew.consumedPoints > 10 then
        (OtpLimiterOutcome.rateLimited (ceilSeconds iNew.msBeforeNext), st2)
      else (OtpLimiterOutcome.allow, st2)

/-- `BLOCK_TIME_SECONDS` (`globalRateLimiter.ts` line 62). -/
def BLOCK_TIME_SECONDS : Nat := 3 * 60 * 60

/-- What `rateLimiter.consume(ip)` does on one request, as the middleware
can observe it: resolve (`allowed`), reject with a `RateLimiterRes`
because the 10-per-second budget is exceeded (`limited`), or reject with
an `Error` because Redis is unreachable (`storeError`). -/
inductive ConsumeOutcome
  | allowed
  | limited
  | storeError
deriving DecidableEq, Repr

/-- Outcome of the `globalRateLimiter` middleware for one request. -/
inductive GlobalLimiterOutcome
  | proceed
  | blockedCached
  | blockedNew
deriving DecidableEq, Repr

/-- The `globalRateLimiter` middleware (`globalRateLimiter.ts` lines
72-95) acting on the in-memory `blockedIps` map (IP to `blockedUntil`
epoch milliseconds).  A cached entry with `blockedUntil > now`
short-circuits to a 429 without touching the entry; a cached entry whose
time has passed is left in place and the request falls through to
`consume`.  The single `catch` makes no distinction between a rate-limit
rejection and a store error: either way the IP is written into
`blockedIps` until `now + BLOCK_TIME_SECONDS * 1000` (and mirrored to the
Redis `blacklist:` key) and a 429 is returned. -/
def globalRateLimiter (ip : String) (now : Nat) (outcome : ConsumeOutcome)
    (blockedIps : Store Nat) : GlobalLimiterOutcome × Store Nat :=
  let consumePhase : GlobalLimiterOutcome × Store Nat :=
    match outcome with
    | ConsumeOutcome.allowed => (GlobalLimiterOutcome.proceed, blockedIps)
    | _ =>
      (GlobalLimiterOutcome.blockedNew,
        blockedIps.set ip (now + BLOCK_TIME_SECONDS * 1000))
  match blockedIps ip with
  | some blockedUntil =>
    if blockedUntil > now then (GlobalLimiterOutcome.blockedCached, blockedIps)
    else consumePhase
  | none => consumePhase

/-- The periodic sweep (`globalRateLimiter.ts` lines 101-110): every five
minutes, delete from `blockedIps` every entry whose `expireTime` lies
strictly in the past. -/
def sweepBlockedIps (now : Nat) (blockedIps : Store Nat) : Store Nat :=
  fun ip =>
    match blockedIps ip with
    | some expireTime => if now > expireTime then none else some expireTime
    | none => none

/-! Shared helper lemmas about the store model. -/

@[simp] theorem Store.empty_apply {α : Type} (k : String) :
    (Store.empty : Store α) k = none := rfl

@[simp] theorem Store.set_same {α : Type} (st : Store α) (k : String) (v : α) :
    st.set k v k = some v := by simp [Store.set]

@[simp] theorem Store.del_same {α : Type} (st : Store α) (k : String) :
    st.del k k = none := by simp [Store.del]

theorem Store.set_other {α : Type} (st : Store α) (k k2 : String) (v : α)
    (h : k2 ≠ k) : st.set k v k2 = st k2 := by simp [Store.set, h]

theorem Store.del_other {α : Type} (st : Store α) (k k2 : String)
    (h : k2 ≠ k) : st.del k k2 = st k2 := by simp [Store.del, h]

/-- C9: for every subject whose OTP key is absent from the store — whether
the OTP was never issued, expired off the store, or was deleted on
exhaustion — `verifyOtp` returns the same failure value, with no
`attemptsLeft` hint and no store change, for every candidate code; the
three absence causes are therefore indistinguishable to the caller. -/
theorem otp_absent_uniform_failure (email cand : String) (st : Store OtpRecord)
    (h : OtpRedisService.getOtpData email st = none) :
    OtpService.verifyOtp email cand st
      = ({ success := false, attemptsLeft := none }, st) := by
  simp [OtpService.verifyOtp, h]

theorem otp_absent_uniform_failure_witness :
    OtpRedisService.getOtpData "a@x.com" (Store.empty : Store OtpRecord) = none ∧
    OtpService.verifyOtp "a@x.com" "123456" (Store.empty : Store OtpRecord)
      = ({ success := false, attemptsLeft := none }, (Store.empty : Store OtpRecord)) :=
  ⟨rfl, otp_absent_uniform_failure "a@x.com" "123456" Store.empty rfl⟩

/-- C10: when the password-change step fails after the reset token was
verified, `resetPassword` reaches the `catch` before
`ResetTokenService.delete`: it reports the failure with the store
unchanged, and the token is still redeemable afterwards. -/
theorem resetPassword_change_failure_preserves_token (email token : String)
    (st : Store Encrypted) (h : ResetTokenService.verify email token st = true) :
    resetPassword email token false st = (ResetPasswordResult.changeFailed, st) ∧
    ResetTokenService.verify email token (resetPassword email token false st).2
      = true := by
  constructor
  · simp [resetPassword, h]
  · simp [resetPassword, h]

theorem resetPassword_change_failure_preserves_token_witness :
    ResetTokenService.verify "a@x.com" "tok-1"
      (ResetTokenService.createAndStore "a@x.com" "tok-1" Store.empty) = true ∧
    (resetPassword "a@x.com" "tok-1" false
        (ResetTokenService.createAndStore "a@x.com" "tok-1" Store.empty)
      = (ResetPasswordResult.changeFailed,
         ResetTokenService.createAndStore "a@x.com" "tok-1" Store.empty) ∧
     ResetTokenService.verify "a@x.com" "tok-1"
        (resetPassword "a@x.com" "tok-1" false
          (ResetTokenService.createAndStore "a@x.com" "tok-1" Store.empty)).2 = true) :=
  ⟨by decide,
   resetPassword_change_failure_preserves_token "a@x.com" "tok-1"
     (ResetTokenService.createAndStore "a@x.com" "tok-1" Store.empty) (by decide)⟩

/-- C6 counterexample: the persisted OTP and reset-token keys for
`alice@example.com` are the fixed namespace followed by the raw email —
no one-way digest is applied, so the raw email appears verbatim in both
cache keys, contradicting the claim that keys embed a digest and never
the raw email. -/
theorem otp_and_reset_keys_embed_raw_email :
    OtpRedisService.getKey "alice@example.com"
      = "auth:password-reset:otp:" ++ "alice@example.com" ∧
    ResetTokenRedisService.getKey "alice@example.com"
      = "auth:password-reset:token:" ++ "alice@example.com" :=
  ⟨rfl, rfl⟩

/-- C6 amended: the OTP record key is `auth:password-reset:otp:{email}`
and the reset-token key is `auth:password-reset:token:{email}`, with the
raw email appended as-is; the mapping is injective (deterministic and
collision-free) but trivially reversible rather than one-way. -/
theorem redis_keys_are_raw_email_keys (email email2 : String) :
    OtpRedisService.getKey email = "auth:password-reset:otp:" ++ email ∧
    ResetTokenRedisService.getKey email = "auth:password-reset:token:" ++ email ∧
    (OtpRedisService.getKey email = OtpRedisService.getKey email2 → email = email2) ∧
    (ResetTokenRedisService.getKey email = ResetTokenRedisService.getKey email2
      → email = email2) := by
  refine ⟨rfl, rfl, ?_, ?_⟩
  · intro h
    have h2 := congrArg String.data h
    simp [OtpRedisService.getKey, String.data_append] at h2
    exact String.ext h2
  · intro h
    have h2 := congrArg String.data h
    simp [ResetTokenRedisService.getKey, String.data_append] at h2
    exact String.ext h2

theorem redis_keys_are_raw_email_keys_witness :
    OtpRedisService.getKey "alice@example.com"
      = "auth:password-reset:otp:" ++ "alice@example.com" ∧
    ("alice@example.com" : String) = "alice@example.com" :=
  ⟨(redis_keys_are_raw_email_keys "alice@example.com" "alice@example.com").1,
   (redis_keys_are_raw_email_keys "alice@example.com" "alice@example.com").2.2.1 rfl⟩

/-- C7 counterexample: when `rateLimiter.consume` fails because the store
is unreachable, `globalRateLimiter`'s catch-all produces a state and
response identical to an ordinary rate-limit trip: the same 429 block
response, and a fresh block-list entry for the IP lasting three hours —
the infrastructure failure is not surfaced distinctly. -/
theorem globalRateLimiter_store_error_blocks_ip :
    globalRateLimiter "9.9.9.9" 5000 ConsumeOutcome.storeError Store.empty
      = globalRateLimiter "9.9.9.9" 5000 ConsumeOutcome.limited Store.empty ∧
    (globalRateLimiter "9.9.9.9" 5000 ConsumeOutcome.storeError Store.empty).1
      = GlobalLimiterOutcome.blockedNew ∧
    (globalRateLimiter "9.9.9.9" 5000 ConsumeOutcome.storeError Store.empty).2 "9.9.9.9"
      = some 10805000 :=
  ⟨rfl, rfl, by decide⟩

/-- C7 amended: neither middleware lets a request proceed on a store
failure; `requestOtpLimiter` surfaces it as a distinct 500 with nothing
consumed, but `globalRateLimiter` does not distinguish it from a
rate-limit trip — an IP with no active block gets a 429 and a three-hour
block-list entry when the store errors during its consume. -/
theorem store_error_never_allows (st : OtpLimState) (bl : Store Nat)
    (ip : String) (now : Nat) (h : bl ip = none) :
    requestOtpLimiter false st = (OtpLimiterOutcome.serverError, st) ∧
    (globalRateLimiter ip now ConsumeOutcome.storeError bl).1
      = GlobalLimiterOutcome.blockedNew ∧
    (globalRateLimiter ip now ConsumeOutcome.storeError bl).1
      ≠ GlobalLimiterOutcome.proceed ∧
    (globalRateLimiter ip now ConsumeOutcome.storeError bl).2 ip
      = some (now + BLOCK_TIME_SECONDS * 1000) := by
  refine ⟨rfl, ?_, ?_, ?_⟩ <;> simp [globalRateLimiter, h]

theorem store_error_never_allows_witness :
    (Store.empty : Store Nat) "9.9.9.9" = none ∧
    (requestOtpLimiter false ⟨none, none, none⟩
        = (OtpLimiterOutcome.serverError, ⟨none, none, none⟩) ∧
     (globalRateLimiter "9.9.9.9" 5000 ConsumeOutcome.storeError Store.empty).1
        = GlobalLimiterOutcome.blockedNew ∧
     (globalRateLimiter "9.9.9.9" 5000 ConsumeOutcome.storeError Store.empty).1
        ≠ GlobalLimiterOutcome.proceed ∧
     (globalRateLimiter "9.9.9.9" 5000 ConsumeOutcome.storeError Store.empty).2 "9.9.9.9"
        = some (5000 + BLOCK_TIME_SECONDS * 1000)) :=
  ⟨rfl, store_error_never_allows ⟨none, none, none⟩ Store.empty "9.9.9.9" 5000 rfl⟩

/-- C8 counterexample: a block created by the middleware itself at time 0
expires at 10800000 ms, yet at time 10800001 the entry is still in the
cache with its `blockedUntil` in the past, and the check at that IP lets
the request proceed while leaving the expired entry in place — the cache
check performs no lazy removal, refuting the claimed invariant. -/
theorem blocked_cache_keeps_expired_entry_on_check :
    (globalRateLimiter "1.2.3.4" 0 ConsumeOutcome.limited Store.empty).2 "1.2.3.4"
      = some 10800000 ∧
    (10800000 : Nat) < 10800001 ∧
    globalRateLimiter "1.2.3.4" 10800001 ConsumeOutcome.allowed
        ((globalRateLimiter "1.2.3.4" 0 ConsumeOutcome.limited Store.empty).2)
      = (GlobalLimiterOutcome.proceed,
         (globalRateLimiter "1.2.3.4" 0 ConsumeOutcome.limited Store.empty).2) :=
  ⟨by decide, by decide, rfl⟩

/-- C8 amended: an expired entry can linger in the cache until the next
periodic sweep; what holds instead is that the check only short-circuits
to "blocked" on an entry whose `blockedUntil` is strictly in the future,
and that the sweep retains exactly the entries whose `expireTime` has not
strictly passed. -/
theorem blocked_cache_check_and_sweep (bl : Store Nat) (ip : String)
    (now t : Nat) (outcome : ConsumeOutcome) :
    ((globalRateLimiter ip now outcome bl).1 = GlobalLimiterOutcome.blockedCached
      → ∃ tb, bl ip = some tb ∧ now < tb) ∧
    (sweepBlockedIps now bl ip = some t ↔ bl ip = some t ∧ now ≤ t) := by
  constructor
  · intro h
    rcases hb : bl ip with _ | tb
    · cases outcome <;> simp [globalRateLimiter, hb] at h
    · by_cases hlt : now < tb
      · exact ⟨tb, rfl, hlt⟩
      · cases outcome <;> simp [globalRateLimiter, hb, gt_iff_lt, hlt] at h
  · unfold sweepBlockedIps
    rcases hb : bl ip with _ | tb
    · simp
    · by_cases hgt : now > tb
      · simp only [if_pos hgt]
        constructor
        · intro h; cases h
        · rintro ⟨h1, h2⟩
          cases h1
          omega
      · simp only [if_neg hgt]
        constructor
        · rintro h
          cases h
          exact ⟨rfl, by omega⟩
        · rintro ⟨h1, _⟩
          cases h1
          rfl

theorem blocked_cache_check_and_sweep_witness :
    sweepBlockedIps 5 ((Store.empty : Store Nat).set "1.2.3.4" 9) "1.2.3.4" = some 9 :=
  (blocked_cache_check_and_sweep ((Store.empty : Store Nat).set "1.2.3.4" 9)
      "1.2.3.4" 5 9 ConsumeOutcome.allowed).2.mpr ⟨by decide, by decide⟩

/-- C1 counterexample: redemption is a `verify` read followed later by a
separate `delete`, with no atomic check-and-delete.  Interleaving two
redemptions of the same freshly issued token so that both `verify` reads
run before either `delete` (schedule: P1 verify, P2 verify, P1 delete,
P2 delete) makes both redemptions succeed, refuting "exactly one succeeds
and the other fails". -/
theorem resetToken_concurrent_double_redeem_succeeds_twice :
    (runSchedule "a@x.com" "tok-1" [false, true, false, true]
        (redeemInit "a@x.com" "tok-1")).p1 = { pc := 2, success := true } ∧
    (runSchedule "a@x.com" "tok-1" [false, true, false, true]
        (redeemInit "a@x.com" "tok-1")).p2 = { pc := 2, success := true } :=
  ⟨by decide, by decide⟩

/-- C1 amended: single-use holds only serially.  A completed redemption
deletes the token, so a second redemption of the same token afterwards
fails (`resetPassword` reports the 401 invalid-token error), and running
the two-process redemption with the steps of P1 strictly before P2 yields
exactly one success; but the check-and-delete is not atomic, so
overlapping redemptions can both succeed. -/
theorem resetToken_sequential_single_use (email token : String)
    (st : Store Encrypted) (h : ResetTokenService.verify email token st = true) :
    (resetPassword email token true st).1 = ResetPasswordResult.ok ∧
    (resetPassword email token true (resetPassword email token true st).2).1
      = ResetPasswordResult.invalidToken ∧
    (runSchedule email token [false, false, true, true]
        (redeemInit email token)).p1.success = true ∧
    (runSchedule email token [false, false, true, true]
        (redeemInit email token)).p2.success = false := by
  refine ⟨?_, ?_, ?_, ?_⟩
  · simp [resetPassword, h]
  · have h1 : resetPassword email token true st
        = (ResetPasswordResult.ok, ResetTokenService.delete email st) := by
      simp [resetPassword, h]
    rw [h1]
    simp [resetPassword, ResetTokenService.verify, ResetTokenService.delete,
      ResetTokenRedisService.getToken, ResetTokenRedisService.deleteToken]
  · simp [runSchedule, redeemInit, redeemStep, ResetTokenService.verify,
      ResetTokenService.createAndStore, ResetTokenService.delete,
      ResetTokenRedisService.getToken, ResetTokenRedisService.setResetToken,
      ResetTokenRedisService.deleteToken, compare, encrypt]
  · simp [runSchedule, redeemInit, redeemStep, ResetTokenService.verify,
      ResetTokenService.createAndStore, ResetTokenService.delete,
      ResetTokenRedisService.getToken, ResetTokenRedisService.setResetToken,
      ResetTokenRedisService.deleteToken, compare, encrypt]

theorem resetToken_sequential_single_use_witness :
    ResetTokenService.verify "a@x.com" "tok-1"
      (ResetTokenService.createAndStore "a@x.com" "tok-1" Store.empty) = true ∧
    ((resetPassword "a@x.com" "tok-1" true
        (ResetTokenService.createAndStore "a@x.com" "tok-1" Store.empty)).1
        = ResetPasswordResult.ok ∧
     (resetPassword "a@x.com" "tok-1" true
        (resetPassword "a@x.com" "tok-1" true
          (ResetTokenService.createAndStore "a@x.com" "tok-1" Store.empty)).2).1
        = ResetPasswordResult.invalidToken ∧
     (runSchedule "a@x.com" "tok-1" [false, false, true, true]
        (redeemInit "a@x.com" "tok-1")).p1.success = true ∧
     (runSchedule "a@x.com" "tok-1" [false, false, true, true]
        (redeemInit "a@x.com" "tok-1")).p2.success = false) :=
  ⟨by decide,
   resetToken_sequential_single_use "a@x.com" "tok-1"
     (ResetTokenService.createAndStore "a@x.com" "tok-1" Store.empty) (by decide)⟩

/-- C2 counterexample: a token whose header names the verification key
(`kid = verification-v1`), whose signature is valid under the
verification secret, but whose payload claims `type = access`, is
returned by `verifyToken` as a valid access payload: no check relates the
declared purpose to the key that signed the token. -/
theorem verifyToken_accepts_cross_purpose_token :
    verifyToken
        { kid := some "verification-v1", userId := some "u1",
          type := some "access", signedWith := verificationTokenSecret,
          expired := false }
      = Except.ok { userId := "u1", type := "access" } := rfl

/-- C2 amended: `verifyToken` rejects unknown or missing key identifiers
and invalid signatures, but performs no purpose-versus-key cross-check:
any unexpired token with a known `kid`, a signature valid under that
`kid`'s secret and non-empty `userId`/`type` claims is returned with its
declared `type` verbatim.  Purpose enforcement happens only in the
callers, which compare the returned `type` with the expected purpose —
so an honestly issued verification token (whose payload declares
`verification`) is rejected wherever `access` is expected. -/
theorem verifyToken_returns_declared_type_and_callers_enforce
    (u ty kid secret : String) (p : TokenPayloadData)
    (hu : u ≠ "") (hty : ty ≠ "") (hkid : secretsMap kid = some secret)
    (hp : p.type = TokenType.verification) :
    verifyToken { kid := some kid, userId := some u, type := some ty,
                  signedWith := secret, expired := false }
      = Except.ok { userId := u, type := ty } ∧
    callerAccepts "access" (verifyToken (generateToken p)) = false := by
  constructor
  · simp [verifyToken, hkid, hu, hty]
  · by_cases hpu : p.userId = ""
    · simp [callerAccepts, verifyToken, generateToken, hp, hpu, secretsMap,
        kidMap, TokenType.toPayloadString]
    · simp [callerAccepts, verifyToken, generateToken, hp, hpu, secretsMap,
        kidMap, TokenType.toPayloadString]

theorem verifyToken_returns_declared_type_and_callers_enforce_witness :
    ("u1" : String) ≠ "" ∧ ("access" : String) ≠ "" ∧
    secretsMap "verification-v1" = some verificationTokenSecret ∧
    (verifyToken { kid := some "verification-v1", userId := some "u1",
                   type := some "access",
                   signedWith := verificationTokenSecret, expired := false }
       = Except.ok { userId := "u1", type := "access" } ∧
     callerAccepts "access"
       (verifyToken (generateToken { userId := "u2",
                                     type := TokenType.verification })) = false) :=
  ⟨by decide, by decide, by decide,
   verifyToken_returns_declared_type_and_callers_enforce "u1" "access"
     "verification-v1" verificationTokenSecret
     { userId := "u2", type := TokenType.verification }
     (by decide) (by decide) (by decide) rfl⟩

/-- C3: starting from a freshly stored OTP (attemptsLeft = 3), each
wrong-code `verifyOtp` decrements the counter: the first two failures
report the new counts 2 and 1; the third failure drives the count to
zero, reports failure with no hint (exhaustion), and deletes the record;
a fourth attempt with the correct code then fails exactly like an absent
OTP, leaving the store unchanged. -/
theorem otp_wrong_code_decrements_then_exhausts (u : UserDoc)
    (code w : String) (st : Store OtpRecord) (hw : w ≠ code) :
    (OtpService.verifyOtp u.email w (OtpService.generateAndSendOtp u code st)).1
      = { success := false, attemptsLeft := some 2 } ∧
    (OtpService.verifyOtp u.email w (otpAfterWrong u.email w
        (OtpService.generateAndSendOtp u code st))).1
      = { success := false, attemptsLeft := some 1 } ∧
    (OtpService.verifyOtp u.email w (otpAfterWrong u.email w (otpAfterWrong u.email w
        (OtpService.generateAndSendOtp u code st)))).1
      = { success := false, attemptsLeft := none } ∧
    OtpRedisService.getOtpData u.email (otpAfterWrong u.email w (otpAfterWrong u.email w
        (otpAfterWrong u.email w (OtpService.generateAndSendOtp u code st)))) = none ∧
    OtpService.verifyOtp u.email code (otpAfterWrong u.email w (otpAfterWrong u.email w
        (otpAfterWrong u.email w (OtpService.generateAndSendOtp u code st))))
      = ({ success := false, attemptsLeft := none },
         otpAfterWrong u.email w (otpAfterWrong u.email w (otpAfterWrong u.email w
           (OtpService.generateAndSendOtp u code st)))) := by
  have hwb : (w == code) = false := beq_eq_false_iff_ne.mpr hw
  refine ⟨?_, ?_, ?_, ?_, ?_⟩ <;>
    simp [OtpService.verifyOtp, OtpService.generateAndSendOtp, otpAfterWrong,
      OtpRedisService.setOtp, OtpRedisService.getOtpData,
      OtpRedisService.decreaseAttempts, OtpRedisService.deleteOtp,
      Store.set, Store.del, compare, encrypt, hwb]

theorem otp_wrong_code_decrements_then_exhausts_witness :
    ("000000" : String) ≠ "123456" ∧
    ((OtpService.verifyOtp "a@x.com" "000000"
        (OtpService.generateAndSendOtp ⟨"id1", "a@x.com"⟩ "123456" Store.empty)).1
        = { success := false, attemptsLeft := some 2 } ∧
     (OtpService.verifyOtp "a@x.com" "000000" (otpAfterWrong "a@x.com" "000000"
        (OtpService.generateAndSendOtp ⟨"id1", "a@x.com"⟩ "123456" Store.empty))).1
        = { success := false, attemptsLeft := some 1 } ∧
     (OtpService.verifyOtp "a@x.com" "000000" (otpAfterWrong "a@x.com" "000000"
        (otpAfterWrong "a@x.com" "000000"
          (OtpService.generateAndSendOtp ⟨"id1", "a@x.com"⟩ "123456" Store.empty)))).1
        = { success := false, attemptsLeft := none } ∧
     OtpRedisService.getOtpData "a@x.com" (otpAfterWrong "a@x.com" "000000"
        (otpAfterWrong "a@x.com" "000000" (otpAfterWrong "a@x.com" "000000"
          (OtpService.generateAndSendOtp ⟨"id1", "a@x.com"⟩ "123456" Store.empty)))) = none ∧
     OtpService.verifyOtp "a@x.com" "123456" (otpAfterWrong "a@x.com" "000000"
        (otpAfterWrong "a@x.com" "000000" (otpAfterWrong "a@x.com" "000000"
          (OtpService.generateAndSendOtp ⟨"id1", "a@x.com"⟩ "123456" Store.empty))))
        = ({ success := false, attemptsLeft := none },
           otpAfterWrong "a@x.com" "000000" (otpAfterWrong "a@x.com" "000000"
             (otpAfterWrong "a@x.com" "000000"
               (OtpService.generateAndSendOtp ⟨"id1", "a@x.com"⟩ "123456" Store.empty))))) :=
  ⟨by decide,
   otp_wrong_code_decrements_then_exhausts ⟨"id1", "a@x.com"⟩ "123456" "000000"
     Store.empty (by decide)⟩

/-- C4: `setOtp` begins by deleting the subject's key and then stores the
fresh record, so a second `Generate` for the same subject unconditionally
replaces the first: afterwards the store holds exactly the second code
with a full attempt budget, and verifying the first code fails. -/
theorem otp_second_generate_invalidates_first (u : UserDoc)
    (code1 code2 : String) (st : Store OtpRecord) (h : code1 ≠ code2) :
    OtpRedisService.getOtpData u.email
        (OtpService.generateAndSendOtp u code2
          (OtpService.generateAndSendOtp u code1 st))
      = some { userId := u.id, hashedOtp := encrypt code2, attemptsLeft := 3 } ∧
    (OtpService.verifyOtp u.email code1
        (OtpService.generateAndSendOtp u code2
          (OtpService.generateAndSendOtp u code1 st))).1.success = false := by
  have hb : (code1 == code2) = false := beq_eq_false_iff_ne.mpr h
  constructor
  · simp [OtpService.generateAndSendOtp, OtpRedisService.setOtp,
      OtpRedisService.getOtpData]
  · simp [OtpService.verifyOtp, OtpService.generateAndSendOtp,
      OtpRedisService.setOtp, OtpRedisService.getOtpData,
      OtpRedisService.decreaseAttempts, Store.set, Store.del,
      compare, encrypt, hb]

theorem otp_second_generate_invalidates_first_witness :
    ("111111" : String) ≠ "222222" ∧
    (OtpRedisService.getOtpData "a@x.com"
        (OtpService.generateAndSendOtp ⟨"id1", "a@x.com"⟩ "222222"
          (OtpService.generateAndSendOtp ⟨"id1", "a@x.com"⟩ "111111" Store.empty))
       = some { userId := "id1", hashedOtp := encrypt "222222", attemptsLeft := 3 } ∧
     (OtpService.verifyOtp "a@x.com" "111111"
        (OtpService.generateAndSendOtp ⟨"id1", "a@x.com"⟩ "222222"
          (OtpService.generateAndSendOtp ⟨"id1", "a@x.com"⟩ "111111"
            Store.empty))).1.success = false) :=
  ⟨by decide,
   otp_second_generate_invalidates_first ⟨"id1", "a@x.com"⟩ "111111" "222222"
     Store.empty (by decide)⟩

/-- C5 counterexample: the short-term limiter is a configured limiter of
the composite but is never peeked.  In a state where it has zero
remaining points (1 of 1 consumed, 30 s before reset) while both daily
limiters are below budget, the claim demands an immediate rejection with
`retryAfter = ceil(max of all peeked limiters)` = 500 s and no
consumption; the middleware instead passes the peek phase, consumes
(increments) the exhausted short-term limiter, and returns 30 s. -/
theorem requestOtpLimiter_short_term_not_peeked :
    remainingPoints 1 { consumedPoints := 1, msBeforeNext := 30000 } = 0 ∧
    requestOtpLimiter true
        { shortTerm := some { consumedPoints := 1, msBeforeNext := 30000 },
          dailyEmail := some { consumedPoints := 2, msBeforeNext := 500000 },
          dailyIp := none }
      = (OtpLimiterOutcome.rateLimited 30,
         { shortTerm := some { consumedPoints := 2, msBeforeNext := 30000 },
           dailyEmail := some { consumedPoints := 2, msBeforeNext := 500000 },
           dailyIp := none }) ∧
    (30 : Nat) ≠ ceilSeconds (max 30000 (max 500000 0)) :=
  ⟨by decide, by decide, by decide⟩

/-- C5 amended: the middleware peeks only the two daily limiters (per-email
daily and per-IP daily), never the short-term limiter.  Whenever either
peeked limiter reports zero remaining points, the request is rejected
immediately with `retryAfter = ceil(max(emailMs, ipMs) / 1000)` over the
two peeked limiters, and no limiter has a point consumed (the state is
unchanged). -/
theorem requestOtpLimiter_daily_peek_rejects_unconsumed (st : OtpLimState)
    (h : peekExhausted 5 st.dailyEmail = true ∨ peekExhausted 10 st.dailyIp = true) :
    requestOtpLimiter true st
      = (OtpLimiterOutcome.rateLimited
          (ceilSeconds (max (optMs st.dailyEmail) (optMs st.dailyIp))), st) := by
  rcases h with h | h <;> simp [requestOtpLimiter, h]

theorem requestOtpLimiter_daily_peek_rejects_unconsumed_witness :
    (peekExhausted 5 (some { consumedPoints := 5, msBeforeNext := 7000 }) = true ∨
     peekExhausted 10 (some { consumedPoints := 3, msBeforeNext := 2000 }) = true) ∧
    requestOtpLimiter true
        { shortTerm := none,
          dailyEmail := some { consumedPoints := 5, msBeforeNext := 7000 },
          dailyIp := some { consumedPoints := 3, msBeforeNext := 2000 } }
      = (OtpLimiterOutcome.rateLimited
          (ceilSeconds (max
            (optMs (some { consumedPoints := 5, msBeforeNext := 7000 }))
            (optMs (some { consumedPoints := 3, msBeforeNext := 2000 })))),
         { shortTerm := none,
           dailyEmail := some { consumedPoints := 5, msBeforeNext := 7000 },
           dailyIp := some { consumedPoints := 3, msBeforeNext := 2000 } }) :=
  ⟨Or.inl (by decide),
   requestOtpLimiter_daily_peek_rejects_unconsumed
     { shortTerm := none,
       dailyEmail := some { consumedPoints := 5, msBeforeNext := 7000 },
       dailyIp := some { consumedPoints := 3, msBeforeNext := 2000 } }
     (Or.inl (by decide))⟩

end JwtAuth
